import Mathlib

/-!
A shallow embedding of `src/app.py`, a small Flask application that renders
an uploaded source-code file to a PNG screenshot and serves it back once.

The mutable pieces of the program are `SCREENSHOT_CACHE` (a process-wide
dict keyed by uuid strings, modelled as an association list) and the Flask
session cookie (which only ever holds the keys `cache_id` and `is_redirect`).
Each HTTP handler becomes a pure function from the incoming state (and the
request data) to a response together with the outgoing state.

Calls into third-party libraries — `werkzeug.utils.secure_filename`,
Python's `bytes.decode("utf-8")`, the Playwright browser automation, and
`uuid.uuid4()` — are modelled as parameters of the handler (`PostEnv`,
`BrowserOutcome`), since their code is not part of this repository; the
handler's own control flow around them is translated line by line.
-/

/-- File contents and PNG screenshots are byte sequences. -/
abbrev Bytes := List Nat

/-- One record of `SCREENSHOT_CACHE` (src/app.py lines 169-172):
`{'bytes': ..., 'filename': ...}`. -/
structure CacheEntry where
  bytes : Bytes
  filename : String
deriving DecidableEq, Repr

/-- The in-memory store `SCREENSHOT_CACHE` (src/app.py line 22): a dict from
uuid strings to cache records, modelled as an association list. -/
abbrev Cache := List (String × CacheEntry)

/-- The Flask session cookie. The program only ever stores the keys
`cache_id` (a uuid string) and `is_redirect` (set to `True`); an absent key
is `none`. -/
structure Session where
  cache_id : Option String
  is_redirect : Option Bool
deriving DecidableEq, Repr

/-- Python truthiness of `session.get('cache_id')`: `None` and the empty
string are falsy, every other string is truthy. -/
def truthy : Option String → Bool
  | none => false
  | some s => !(s == "")

/-- `k in SCREENSHOT_CACHE` / `SCREENSHOT_CACHE[k]`: association-list
lookup. -/
def cacheLookup (c : Cache) (k : String) : Option CacheEntry :=
  (c.find? (fun p => p.1 == k)).map (fun p => p.2)

/-- `SCREENSHOT_CACHE[k] = v`: Python dict assignment (replace the value if
the key is present, otherwise add the pair). -/
def cacheInsert (c : Cache) (k : String) (v : CacheEntry) : Cache :=
  if c.any (fun p => p.1 == k) then
    c.map (fun p => if p.1 == k then (k, v) else p)
  else
    c ++ [(k, v)]

/-- `SCREENSHOT_CACHE.pop(k, None)`: remove the key from the dict. -/
def cachePop (c : Cache) (k : String) : Cache :=
  c.filter (fun p => !(p.1 == k))

/-- The observable outcome of one handler call: a rendered `index.html`
(with the template arguments `image_data`, `image_filename`, `cache_id` and
any flashed message), a redirect to the index route (with any flashed
message), or a file download response. -/
inductive Resp where
  | html (image_data : Option Bytes) (image_filename : Option String)
      (cache_id : Option String) (flash : Option String)
  | redirect (flash : Option String)
  | fileDownload (bytes : Bytes) (filename : String) (mimetype : String)
      (disposition : String)
deriving DecidableEq, Repr

/-- `app.config['MAX_CONTENT_LENGTH'] = 1 * 1024 * 1024` (src/app.py
line 16). -/
def MAX_CONTENT_LENGTH : Nat := 1 * 1024 * 1024

/-- The outcome of the Playwright calls inside `generate_screenshot`
(launch, set_content, measure, element screenshot), abstracted as a function
of the code content: success with the PNG bytes, a `playwright.sync_api.Error`
with a message, or any other exception with a message. -/
inductive BrowserOutcome where
  | ok (screenshot_bytes : Bytes)
  | playwrightError (msg : String)
  | otherError (msg : String)
deriving DecidableEq, Repr

/-- Python substring containment `n in h` on character lists: some suffix of
`h` starts with `n`. -/
def substrIn (n : List Char) : List Char → Bool
  | [] => n.isEmpty
  | c :: t => n.isPrefixOf (c :: t) || substrIn n t

/-- Python `filename.rsplit('.', 1)`: split on the last occurrence of the
dot, at most once; a string with no dot yields the one-element list. -/
def rsplitDot1 (s : String) : List String :=
  if s.data.contains '.' then
    [⟨((s.data.reverse.dropWhile (fun c => !(c == '.'))).drop 1).reverse⟩,
     ⟨(s.data.reverse.takeWhile (fun c => !(c == '.'))).reverse⟩]
  else
    [s]

/-- Spec-side characterisation of the derived base name: the filename with
everything from its last dot onward removed, and the whole filename when it
contains no dot. Compared against the source's `rsplit('.', 1)[0]`. -/
def stripLastExt (s : String) : String :=
  if s.data.contains '.' then
    ⟨((s.data.reverse.dropWhile (fun c => !(c == '.'))).drop 1).reverse⟩
  else
    s

/-- `generate_screenshot` (src/app.py lines 29-101). The browser work is the
abstract `browser` call on the decoded code content; the pure residue is the
derived output filename and the wrapping of failures. A raised
`RuntimeError` is modelled as `Except.error` carrying its message. -/
def generate_screenshot (browser : String → BrowserOutcome)
    (code_content : String) (filename : String) :
    Except String (Bytes × String) :=
  match browser code_content with
  | BrowserOutcome.ok screenshot_bytes =>
      Except.ok (screenshot_bytes,
        ((rsplitDot1 filename).headD "") ++ "_code_image.png")
  | BrowserOutcome.playwrightError msg =>
      if substrIn ("Executable doesn\x27t exist".data) msg.data then
        Except.error "Playwright browser binaries are missing. Please ensure \x27playwright install\x27 is run during deployment."
      else
        Except.error ("Failed to generate screenshot: " ++ msg)
  | BrowserOutcome.otherError msg =>
      Except.error ("Failed to generate screenshot: " ++ msg)

/-- The arguments the source passes to `page.set_viewport_size` after
measuring the content element's bounding box (src/app.py lines 84-89):
width `min(1280, w + 40)` and height `min(720, h + 40)`, with the
bounding-box dimensions modelled as rationals (Playwright reports floats). -/
def setViewportArgs (w h : ℚ) : ℚ × ℚ :=
  (min 1280 (w + 40), min 720 (h + 40))

/-- The session after `session.pop('cache_id', None)` and
`session.pop('is_redirect', None)` (src/app.py lines 130-131). -/
def clearedSession : Session := ⟨none, none⟩

/-- `index`, GET branch (src/app.py lines 111-125). Pops `is_redirect`,
reads `cache_id`; a plain (non-redirect) GET with a live cache id clears the
store and the session id; a redirected GET with a live cache id loads the
entry for display; otherwise the empty form is rendered. The local
`cache_id` variable is passed to the template in every branch. -/
def indexGet (st : Cache) (sess : Session) : Resp × Cache × Session :=
  let is_redirect := sess.is_redirect.getD false
  let sess1 : Session := { sess with is_redirect := none }
  let cache_id := sess.cache_id
  if !is_redirect && truthy cache_id
      && (cacheLookup st (cache_id.getD "")).isSome then
    (Resp.html none none cache_id none, [], { sess1 with cache_id := none })
  else if truthy cache_id && (cacheLookup st (cache_id.getD "")).isSome then
    let e := (cacheLookup st (cache_id.getD "")).getD ⟨[], ""⟩
    (Resp.html (some e.bytes) (some e.filename) cache_id none, st, sess1)
  else
    (Resp.html none none cache_id none, st, sess1)

/-- The data of `request.files['code_file']`: the client-supplied filename
and the uploaded bytes. -/
structure FilePart where
  filename : String
  content : Bytes
deriving DecidableEq, Repr

/-- The external inputs consumed by one POST request:
`werkzeug.utils.secure_filename`, Python's `bytes.decode("utf-8")` (`none`
models a raised `UnicodeDecodeError`), the Playwright calls, and
`str(uuid.uuid4())`. -/
structure PostEnv where
  secure_filename : String → String
  decodeUtf8 : Bytes → Option String
  browser : String → BrowserOutcome
  freshId : String

/-- `index`, POST branch after the size check passed (src/app.py
lines 152-182): sanitize the filename, decode the bytes, render, cache the
result under a fresh id, set the session and redirect; any failure
re-renders the form with a flashed message. -/
def postAfterSizeCheck (env : PostEnv) (file : FilePart) :
    Resp × Cache × Session :=
  let filename := env.secure_filename file.filename
  match env.decodeUtf8 file.content with
  | none =>
      (Resp.html none none none
        (some "Invalid file encoding. Please upload a UTF-8 encoded text file."),
       [], clearedSession)
  | some code_content =>
      match generate_screenshot env.browser code_content filename with
      | Except.ok (screenshot_bytes, image_filename) =>
          let cache_id := env.freshId
          (Resp.redirect none,
           cacheInsert [] cache_id ⟨screenshot_bytes, image_filename⟩,
           ⟨some cache_id, some true⟩)
      | Except.error e =>
          (Resp.html none none none (some e), [], clearedSession)

/-- `index`, POST branch (src/app.py lines 128-182). The incoming session
keys are popped and the whole store is cleared before any validation; then
file presence, filename, size, decoding and rendering are checked in that
order. -/
def indexPost (env : PostEnv) (_st : Cache) (_sess : Session)
    (code_file : Option FilePart) : Resp × Cache × Session :=
  let st : Cache := []
  let sess : Session := clearedSession
  match code_file with
  | none =>
      (Resp.html none none none (some "No file uploaded."), st, sess)
  | some file =>
      if file.filename == "" then
        (Resp.html none none none (some "No file selected."), st, sess)
      else if file.content.length > MAX_CONTENT_LENGTH then
        (Resp.html none none none
          (some ("File too large. Maximum size is "
            ++ toString (MAX_CONTENT_LENGTH / 1024) ++ " KB.")),
         st, sess)
      else
        postAfterSizeCheck env file

/-- Spec-side restatement of the GET branch (spec §4.1), written from the
spec's words: pop the `is_redirect` flag; if the flag was absent and a
`cache_id` exists and resolves in the store, delete the session's `cache_id`
and clear the entire store, then render the empty form; if the flag was
present and the `cache_id` resolves, display the entry's bytes and filename
and leave the store untouched; otherwise render the empty form. The flag is
"present" when the session holds `is_redirect = True`, the only value the
program ever stores. -/
def indexGetSpec (st : Cache) (sess : Session) : Resp × Cache × Session :=
  let flagPresent := sess.is_redirect == some true
  let popped : Session := { sess with is_redirect := none }
  match sess.cache_id with
  | some cid =>
      match cacheLookup st cid with
      | some e =>
          if !flagPresent then
            (Resp.html none none (some cid) none, [], ⟨none, none⟩)
          else
            (Resp.html (some e.bytes) (some e.filename) (some cid) none,
             st, popped)
      | none => (Resp.html none none (some cid) none, st, popped)
  | none => (Resp.html none none none none, st, popped)

/-- Spec-side restatement of the download handler (spec §4.4), written from
the spec's words: with an absent or unresolvable session `cache_id`, notify
the user and redirect to the form; otherwise stream the cached bytes as a
PNG attachment under the stored filename, then delete the cache entry and
clear the session's `cache_id` and `is_redirect`. -/
def downloadSpec (st : Cache) (sess : Session) : Resp × Cache × Session :=
  match sess.cache_id with
  | none =>
      (Resp.redirect
        (some "No image available for download. Please generate an image first."),
       st, sess)
  | some cid =>
      match cacheLookup st cid with
      | none =>
          (Resp.redirect
            (some "No image available for download. Please generate an image first."),
           st, sess)
      | some e =>
          (Resp.fileDownload e.bytes e.filename "image/png"
            ("attachment; filename=" ++ e.filename),
           cachePop st cid, ⟨none, none⟩)

/-- `download_image` (src/app.py lines 184-209): with no resolvable
`cache_id` in the session, flash the notice and redirect; otherwise answer
with the cached bytes as a PNG attachment, then delete the entry and the
session keys. -/
def download_image (st : Cache) (sess : Session) : Resp × Cache × Session :=
  let cache_id := sess.cache_id
  if !(truthy cache_id) || !((cacheLookup st (cache_id.getD "")).isSome) then
    (Resp.redirect
      (some "No image available for download. Please generate an image first."),
     st, sess)
  else
    let e := (cacheLookup st (cache_id.getD "")).getD ⟨[], ""⟩
    (Resp.fileDownload e.bytes e.filename "image/png"
      ("attachment; filename=" ++ e.filename),
     cachePop st (cache_id.getD ""), clearedSession)

/-! ## Concrete inputs used by the witnesses -/

/-- A concrete cache record. -/
def sampleEntry : CacheEntry := ⟨[1, 2, 3], "a_code_image.png"⟩

/-- A concrete request environment whose external calls all succeed. -/
def okEnv : PostEnv :=
  ⟨fun s => s, fun _ => some "print(1)", fun _ => BrowserOutcome.ok [7, 7], "id-1"⟩


/-- A concrete request environment whose UTF-8 decode raises
`UnicodeDecodeError`. -/
def badEnv : PostEnv :=
  ⟨fun s => s, fun _ => none, fun _ => BrowserOutcome.ok [7, 7], "id-2"⟩

/-- A concrete request environment whose Playwright call fails because the
browser binaries are missing. -/
def missingEnv : PostEnv :=
  ⟨fun s => s, fun _ => some "x",
   fun _ => BrowserOutcome.playwrightError
     "BrowserType.launch: Executable doesn\x27t exist at /root/.cache/ms-playwright",
   "id-3"⟩

/-- A concrete request environment whose sanitizer maps every filename to
the empty string (as `secure_filename` does for names made only of path
separators or unsafe characters). -/
def emptyNameEnv : PostEnv :=
  ⟨fun _ => "", fun _ => some "x", fun _ => BrowserOutcome.ok [5], "id-4"⟩

/-- A concrete request environment whose sanitizer yields a dot-free
filename. -/
def noDotEnv : PostEnv :=
  ⟨fun _ => "noext", fun _ => some "x", fun _ => BrowserOutcome.ok [5],
   "id-5"⟩

/-- A second concrete request environment for a follow-up upload, with a
distinct fresh uuid. -/
def okEnv2 : PostEnv :=
  ⟨fun s => s, fun _ => some "print(2)", fun _ => BrowserOutcome.ok [8, 8],
   "id-9"⟩

/-! ## Claims -/

/-- C2: on GET `/`, the handler always pops `is_redirect`; a plain GET whose
`cache_id` resolves deletes the session id, clears the whole store and
renders the empty form; a redirected GET whose `cache_id` resolves displays
the entry and leaves the store unchanged; every other case renders the empty
form with no state change. Stated as equality with the spec-side
restatement `indexGetSpec`, for every store and every session whose
`cache_id` is not the empty string (the program only ever stores uuid
strings there). -/
theorem indexGet_matches_spec (st : Cache) (sess : Session)
    (h : ¬ sess.cache_id = some "") :
    indexGet st sess = indexGetSpec st sess := by
  obtain ⟨cido, iro⟩ := sess
  cases cido with
  | none =>
      cases iro <;> simp [indexGet, indexGetSpec, truthy]
  | some cid =>
      have hc : ¬ cid = "" := by simpa using h
      cases hlk : cacheLookup st cid with
      | none =>
          cases iro <;>
            simp [indexGet, indexGetSpec, truthy, hlk, hc]
      | some e =>
          cases iro with
          | none => simp [indexGet, indexGetSpec, truthy, hlk, hc]
          | some b =>
              cases b <;> simp [indexGet, indexGetSpec, truthy, hlk, hc]

/-- Witness for C2 at a concrete store and session. -/
theorem indexGet_matches_spec_witness :
    indexGet [("k", sampleEntry)] ⟨some "k", some true⟩ =
      indexGetSpec [("k", sampleEntry)] ⟨some "k", some true⟩ :=
  indexGet_matches_spec _ _ (by decide)

/-- C3: GET `/download` with an absent or unresolvable session `cache_id`
flashes the "no image available" notice and redirects; otherwise it answers
with the cached bytes as a PNG attachment under the stored filename,
deletes the entry and clears both session keys — so an immediate second
download takes the "no image available" branch. -/
theorem download_image_one_time (st : Cache) (sess : Session)
    (h : ¬ sess.cache_id = some "") :
    download_image st sess = downloadSpec st sess ∧
    (∀ b f m d, (download_image st sess).1 = Resp.fileDownload b f m d →
      (download_image (download_image st sess).2.1
          (download_image st sess).2.2).1 =
        Resp.redirect
          (some "No image available for download. Please generate an image first.")) := by
  constructor
  · obtain ⟨cido, iro⟩ := sess
    cases cido with
    | none => simp [download_image, downloadSpec, truthy]
    | some cid =>
        have hc : ¬ cid = "" := by simpa using h
        cases hlk : cacheLookup st cid with
        | none => simp [download_image, downloadSpec, truthy, hlk, hc]
        | some e =>
            simp [download_image, downloadSpec, truthy, hlk, hc, clearedSession]
  · intro b f m d hfd
    obtain ⟨cido, iro⟩ := sess
    cases cido with
    | none => simp [download_image, truthy] at hfd
    | some cid =>
        by_cases hc : cid = ""
        · subst hc
          simp [download_image, truthy] at hfd
        · cases hlk : cacheLookup st cid with
          | none => simp [download_image, truthy, hlk, hc] at hfd
          | some e => simp [download_image, truthy, hlk, hc, clearedSession]

/-- Witness for C3: a successful download at a concrete store and session,
followed by the failing second download. -/
theorem download_image_one_time_witness :
    (download_image [("k", sampleEntry)] ⟨some "k", some true⟩).1 =
      Resp.fileDownload [1, 2, 3] "a_code_image.png" "image/png"
        "attachment; filename=a_code_image.png" ∧
    (download_image (download_image [("k", sampleEntry)] ⟨some "k", some true⟩).2.1
        (download_image [("k", sampleEntry)] ⟨some "k", some true⟩).2.2).1 =
      Resp.redirect
        (some "No image available for download. Please generate an image first.") :=
  ⟨by decide,
   (download_image_one_time [("k", sampleEntry)] ⟨some "k", some true⟩
      (by decide)).2 [1, 2, 3] "a_code_image.png" "image/png"
      "attachment; filename=a_code_image.png" (by decide)⟩


/-- Helper: a POST whose validation and rendering all succeed answers with
the redirect, leaves exactly the one fresh entry in the store, and sets both
session keys. -/
theorem indexPost_success (env : PostEnv) (st : Cache) (sess : Session)
    (f : FilePart) (code : String) (bytes : Bytes)
    (h1 : ¬ f.filename = "") (h2 : f.content.length ≤ MAX_CONTENT_LENGTH)
    (h3 : env.decodeUtf8 f.content = some code)
    (h4 : env.browser code = BrowserOutcome.ok bytes) :
    indexPost env st sess (some f) =
      (Resp.redirect none,
       [(env.freshId,
         ⟨bytes, ((rsplitDot1 (env.secure_filename f.filename)).headD "")
            ++ "_code_image.png"⟩)],
       ⟨some env.freshId, some true⟩) := by
  simp [indexPost, postAfterSizeCheck, h1, h3, generate_screenshot, h4,
    cacheInsert, gt_iff_lt, Nat.not_lt.mpr h2]

/-- C4: an upload of exactly 1048576 bytes passes the size check (the
handler proceeds to the rest of the pipeline), while any upload of
1048576 + 1 bytes or more stops with the "File too large. Maximum size is
1024 KB." notice, the store cleared and the session discarded. -/
theorem size_limit_boundary :
    (∀ (env : PostEnv) (st : Cache) (sess : Session) (f : FilePart),
      ¬ f.filename = "" → f.content.length = 1048576 →
      indexPost env st sess (some f) = postAfterSizeCheck env f) ∧
    (∀ (env : PostEnv) (st : Cache) (sess : Session) (f : FilePart),
      ¬ f.filename = "" → 1048576 + 1 ≤ f.content.length →
      indexPost env st sess (some f) =
        (Resp.html none none none
          (some "File too large. Maximum size is 1024 KB."),
         [], clearedSession)) := by
  constructor
  · intro env st sess f h1 h2
    have hle : ¬ MAX_CONTENT_LENGTH < f.content.length := by
      simp [MAX_CONTENT_LENGTH]
      omega
    simp [indexPost, h1, gt_iff_lt, hle]
  · intro env st sess f h1 h2
    have hgt : MAX_CONTENT_LENGTH < f.content.length := by
      simp only [MAX_CONTENT_LENGTH]
      omega
    simp [indexPost, h1, gt_iff_lt, hgt]
    decide

/-- Witness for C4: a 1048576-byte upload reaches the post-size pipeline; a
1048577-byte upload is refused with the size notice. -/
theorem size_limit_boundary_witness :
    indexPost okEnv [] clearedSession
        (some ⟨"a.py", List.replicate 1048576 0⟩) =
      postAfterSizeCheck okEnv ⟨"a.py", List.replicate 1048576 0⟩ ∧
    indexPost okEnv [] clearedSession
        (some ⟨"a.py", List.replicate 1048577 0⟩) =
      (Resp.html none none none
        (some "File too large. Maximum size is 1024 KB."),
       [], clearedSession) :=
  ⟨size_limit_boundary.1 okEnv [] clearedSession _ (by decide)
     (by rw [List.length_replicate]),
   size_limit_boundary.2 okEnv [] clearedSession _ (by decide)
     (by rw [List.length_replicate])⟩

/-- C5: a POST whose bytes fail UTF-8 decoding re-renders the form with the
encoding notice; afterwards the store is empty and the session holds no
`cache_id`. -/
theorem invalid_encoding_non_populating (env : PostEnv) (st : Cache)
    (sess : Session) (f : FilePart)
    (h1 : ¬ f.filename = "") (h2 : f.content.length ≤ MAX_CONTENT_LENGTH)
    (h3 : env.decodeUtf8 f.content = none) :
    indexPost env st sess (some f) =
      (Resp.html none none none
        (some "Invalid file encoding. Please upload a UTF-8 encoded text file."),
       [], clearedSession) ∧
    (indexPost env st sess (some f)).2.1 = [] ∧
    (indexPost env st sess (some f)).2.2.cache_id = none := by
  have heq : indexPost env st sess (some f) =
      (Resp.html none none none
        (some "Invalid file encoding. Please upload a UTF-8 encoded text file."),
       [], clearedSession) := by
    simp [indexPost, postAfterSizeCheck, h1, h3, gt_iff_lt, Nat.not_lt.mpr h2]
  exact ⟨heq, by rw [heq], by rw [heq]; rfl⟩

/-- Witness for C5 at a concrete environment and a one-byte file that is not
valid UTF-8. -/
theorem invalid_encoding_non_populating_witness :
    indexPost badEnv [] clearedSession (some ⟨"a.py", [255]⟩) =
      (Resp.html none none none
        (some "Invalid file encoding. Please upload a UTF-8 encoded text file."),
       [], clearedSession) ∧
    (indexPost badEnv [] clearedSession (some ⟨"a.py", [255]⟩)).2.1 = [] ∧
    (indexPost badEnv [] clearedSession (some ⟨"a.py", [255]⟩)).2.2.cache_id
      = none :=
  invalid_encoding_non_populating badEnv [] clearedSession ⟨"a.py", [255]⟩
    (by decide) (by decide) rfl

/-- C6: the POST checks run in the order file-part presence, filename,
size, decoding; each failure stops with exactly its message, for every
environment (so no later check consults the decoder or the browser). -/
theorem validation_sequence :
    (∀ (env : PostEnv) (st : Cache) (sess : Session),
      indexPost env st sess none =
        (Resp.html none none none (some "No file uploaded."),
         [], clearedSession)) ∧
    (∀ (env : PostEnv) (st : Cache) (sess : Session) (f : FilePart),
      f.filename = "" →
      indexPost env st sess (some f) =
        (Resp.html none none none (some "No file selected."),
         [], clearedSession)) ∧
    (∀ (env : PostEnv) (st : Cache) (sess : Session) (f : FilePart),
      ¬ f.filename = "" → MAX_CONTENT_LENGTH < f.content.length →
      indexPost env st sess (some f) =
        (Resp.html none none none
          (some "File too large. Maximum size is 1024 KB."),
         [], clearedSession)) ∧
    (∀ (env : PostEnv) (st : Cache) (sess : Session) (f : FilePart),
      ¬ f.filename = "" → f.content.length ≤ MAX_CONTENT_LENGTH →
      env.decodeUtf8 f.content = none →
      indexPost env st sess (some f) =
        (Resp.html none none none
          (some "Invalid file encoding. Please upload a UTF-8 encoded text file."),
         [], clearedSession)) := by
  refine ⟨fun env st sess => ?_, fun env st sess f h1 => ?_,
    fun env st sess f h1 h2 => ?_, fun env st sess f h1 h2 h3 => ?_⟩
  · simp [indexPost]
  · simp [indexPost, h1]
  · simp [indexPost, h1, gt_iff_lt, h2]
    decide
  · simp [indexPost, postAfterSizeCheck, h1, h3, gt_iff_lt, Nat.not_lt.mpr h2]

/-- Witness for C6: each validation failure at a concrete input, with
environments whose later stages would fail (showing they are not
reached). -/
theorem validation_sequence_witness :
    indexPost badEnv [] clearedSession none =
      (Resp.html none none none (some "No file uploaded."),
       [], clearedSession) ∧
    indexPost badEnv [] clearedSession
        (some ⟨"", List.replicate 1048577 0⟩) =
      (Resp.html none none none (some "No file selected."),
       [], clearedSession) ∧
    indexPost badEnv [] clearedSession
        (some ⟨"b.py", List.replicate 1048577 255⟩) =
      (Resp.html none none none
        (some "File too large. Maximum size is 1024 KB."),
       [], clearedSession) ∧
    indexPost badEnv [] clearedSession (some ⟨"b.py", [255]⟩) =
      (Resp.html none none none
        (some "Invalid file encoding. Please upload a UTF-8 encoded text file."),
       [], clearedSession) :=
  ⟨validation_sequence.1 badEnv [] clearedSession,
   validation_sequence.2.1 badEnv [] clearedSession _ rfl,
   validation_sequence.2.2.1 badEnv [] clearedSession _ (by decide)
     (by rw [List.length_replicate]; norm_num [MAX_CONTENT_LENGTH]),
   validation_sequence.2.2.2 badEnv [] clearedSession _ (by decide)
     (by decide) rfl⟩

/-- Helper: `dropWhile` skips past a leading block whose elements all
satisfy the predicate. -/
theorem dropWhile_append_all {α : Type} (p : α → Bool) (l1 l2 : List α)
    (h : ∀ a ∈ l1, p a = true) :
    (l1 ++ l2).dropWhile p = l2.dropWhile p := by
  induction l1 with
  | nil => rfl
  | cons a t ih =>
      have ha : p a = true := h a (List.mem_cons_self a t)
      simp only [List.cons_append, List.dropWhile_cons, ha, if_true]
      exact ih (fun x hx => h x (List.mem_cons_of_mem a hx))

/-- Helper: the head of Python `rsplit('.', 1)` is the string with
everything from the last dot onward removed. -/
theorem rsplitDot1_headD (s : String) :
    (rsplitDot1 s).headD "" = stripLastExt s := by
  by_cases h : '.' ∈ s.data <;> simp [rsplitDot1, stripLastExt, h]

/-- Helper: a string without a dot is unchanged by `stripLastExt`. -/
theorem stripLastExt_no_dot (s : String)
    (h : s.data.contains '.' = false) : stripLastExt s = s := by
  have h2 : ¬ '.' ∈ s.data := by simpa using h
  simp [stripLastExt, h2]

/-- Helper: `stripLastExt` removes exactly the last dot and what follows. -/
theorem stripLastExt_append_dot (a b : String)
    (h : ∀ c ∈ b.data, ¬ c = '.') :
    stripLastExt (a ++ "." ++ b) = a := by
  have hdata : (a ++ "." ++ b).data = a.data ++ '.' :: b.data := by
    simp [String.data_append]
  have hcontains : ((a ++ "." ++ b).data).contains '.' = true := by
    rw [hdata]; simp
  unfold stripLastExt
  rw [if_pos hcontains, hdata]
  have hrev : (a.data ++ '.' :: b.data).reverse =
      b.data.reverse ++ '.' :: a.data.reverse := by
    simp
  rw [hrev, dropWhile_append_all _ (b.data.reverse) _
    (fun c hc => by
      have : ¬ c = '.' := h c (List.mem_reverse.mp hc)
      simp [this])]
  simp [List.dropWhile_cons]

/-- C7: whenever rendering succeeds, the suggested filename stored for the
upload is the (sanitized) original filename with everything from its last
dot onward removed, followed by `_code_image.png`; a dot-free name is kept
whole; hence every suggested filename ends in `_code_image.png`. -/
theorem output_filename_derivation :
    (∀ (browser : String → BrowserOutcome) (code filename : String)
        (bytes : Bytes),
      browser code = BrowserOutcome.ok bytes →
      generate_screenshot browser code filename =
        Except.ok (bytes, stripLastExt filename ++ "_code_image.png")) ∧
    (∀ s : String, s.data.contains '.' = false → stripLastExt s = s) ∧
    (∀ a b : String, (∀ c ∈ b.data, ¬ c = '.') →
      stripLastExt (a ++ "." ++ b) = a) ∧
    (∀ (browser : String → BrowserOutcome) (code filename : String)
        (out : Bytes × String),
      generate_screenshot browser code filename = Except.ok out →
      ("_code_image.png".data) <:+ out.2.data) := by
  refine ⟨fun browser code filename bytes h => ?_,
    stripLastExt_no_dot, stripLastExt_append_dot,
    fun browser code filename out h => ?_⟩
  · simp only [generate_screenshot, h]
    rw [rsplitDot1_headD]
  · cases hb : browser code with
    | ok bytes =>
        rw [generate_screenshot, hb] at h
        have : out = (bytes,
            ((rsplitDot1 filename).headD "") ++ "_code_image.png") := by
          simpa using h.symm
        rw [this]
        simp only [String.data_append]
        exact List.suffix_append _ _
    | playwrightError msg =>
        rw [generate_screenshot, hb] at h
        by_cases hs : substrIn ("Executable doesn\x27t exist".data) msg.data <;>
          simp [hs] at h
    | otherError msg =>
        rw [generate_screenshot, hb] at h
        simp at h

/-- Witness for C7 at concrete filenames. -/
theorem output_filename_derivation_witness :
    generate_screenshot (fun _ => BrowserOutcome.ok [7, 7]) "print(1)"
        "script.old.py" = Except.ok ([7, 7], "script.old_code_image.png") ∧
    stripLastExt "noext" = "noext" ∧
    stripLastExt "script.old.py" = "script.old" ∧
    ("_code_image.png".data) <:+ ("script.old_code_image.png".data) := by
  have h1 : generate_screenshot (fun _ => BrowserOutcome.ok [7, 7]) "print(1)"
      "script.old.py" = Except.ok ([7, 7], "script.old_code_image.png") :=
    (output_filename_derivation.1 (fun _ => BrowserOutcome.ok [7, 7])
      "print(1)" "script.old.py" [7, 7] rfl).trans
      (congrArg Except.ok (by decide))
  have h3 : ("script.old" ++ "." ++ "py") = "script.old.py" := by decide
  exact ⟨h1,
    output_filename_derivation.2.1 "noext" (by decide),
    h3 ▸ output_filename_derivation.2.2.1 "script.old" "py" (by decide),
    output_filename_derivation.2.2.2 (fun _ => BrowserOutcome.ok [7, 7])
      "print(1)" "script.old.py" ([7, 7], "script.old_code_image.png") h1⟩


/-- C8: a Playwright error whose message contains "Executable doesn't
exist" becomes the distinct environment-not-provisioned `RuntimeError`; any
other rendering failure is wrapped as "Failed to generate screenshot: ..."
carrying the underlying message; and the POST handler turns any such error
into a normal re-render of the form with the message flashed (the model is a
total function, so no handler path escapes). -/
theorem renderer_error_taxonomy :
    (∀ (browser : String → BrowserOutcome) (code filename msg : String),
      browser code = BrowserOutcome.playwrightError msg →
      substrIn ("Executable doesn\x27t exist".data) msg.data = true →
      generate_screenshot browser code filename =
        Except.error "Playwright browser binaries are missing. Please ensure \x27playwright install\x27 is run during deployment.") ∧
    (∀ (browser : String → BrowserOutcome) (code filename msg : String),
      browser code = BrowserOutcome.playwrightError msg →
      substrIn ("Executable doesn\x27t exist".data) msg.data = false →
      generate_screenshot browser code filename =
        Except.error ("Failed to generate screenshot: " ++ msg)) ∧
    (∀ (browser : String → BrowserOutcome) (code filename msg : String),
      browser code = BrowserOutcome.otherError msg →
      generate_screenshot browser code filename =
        Except.error ("Failed to generate screenshot: " ++ msg)) ∧
    (∀ (env : PostEnv) (st : Cache) (sess : Session) (f : FilePart)
        (code e : String),
      ¬ f.filename = "" → f.content.length ≤ MAX_CONTENT_LENGTH →
      env.decodeUtf8 f.content = some code →
      generate_screenshot env.browser code (env.secure_filename f.filename) =
        Except.error e →
      indexPost env st sess (some f) =
        (Resp.html none none none (some e), [], clearedSession)) := by
  refine ⟨fun browser code filename msg hb hs => ?_,
    fun browser code filename msg hb hs => ?_,
    fun browser code filename msg hb => ?_,
    fun env st sess f code e h1 h2 h3 h4 => ?_⟩
  · simp [generate_screenshot, hb, hs]
  · simp [generate_screenshot, hb, hs]
  · simp [generate_screenshot, hb]
  · simp [indexPost, postAfterSizeCheck, h1, h3, h4, gt_iff_lt,
      Nat.not_lt.mpr h2]

/-- Witness for C8: the provisioning error, a wrapped Playwright error, a
wrapped generic error, and the handler flashing the provisioning message. -/
theorem renderer_error_taxonomy_witness :
    generate_screenshot missingEnv.browser "x" "a.py" =
      Except.error "Playwright browser binaries are missing. Please ensure \x27playwright install\x27 is run during deployment." ∧
    generate_screenshot (fun _ => BrowserOutcome.playwrightError
        "Timeout 30000ms exceeded") "x" "a.py" =
      Except.error "Failed to generate screenshot: Timeout 30000ms exceeded" ∧
    generate_screenshot (fun _ => BrowserOutcome.otherError "boom") "x"
        "a.py" = Except.error "Failed to generate screenshot: boom" ∧
    indexPost missingEnv [] clearedSession (some ⟨"a.py", [104, 105]⟩) =
      (Resp.html none none none
        (some "Playwright browser binaries are missing. Please ensure \x27playwright install\x27 is run during deployment."),
       [], clearedSession) := by
  have hmiss : generate_screenshot missingEnv.browser "x" "a.py" =
      Except.error "Playwright browser binaries are missing. Please ensure \x27playwright install\x27 is run during deployment." :=
    renderer_error_taxonomy.1 missingEnv.browser "x" "a.py"
      "BrowserType.launch: Executable doesn\x27t exist at /root/.cache/ms-playwright"
      rfl (by decide)
  refine ⟨hmiss, ?_, ?_, ?_⟩
  · exact (renderer_error_taxonomy.2.1 _ "x" "a.py"
      "Timeout 30000ms exceeded" rfl (by decide)).trans
      (congrArg Except.error (by decide))
  · exact (renderer_error_taxonomy.2.2.1 _ "x" "a.py" "boom" rfl).trans
      (congrArg Except.error (by decide))
  · exact renderer_error_taxonomy.2.2.2 missingEnv [] clearedSession
      ⟨"a.py", [104, 105]⟩ "x"
      "Playwright browser binaries are missing. Please ensure \x27playwright install\x27 is run during deployment."
      (by decide) (by decide) rfl hmiss

/-- C9: the viewport set after measuring the content box (w, h) is exactly
`min(1280, w + 40)` by `min(720, h + 40)`: content plus a 40-pixel margin
when that fits, and never more than the initial 1280 by 720 viewport. -/
theorem viewport_clamping (w h : ℚ) :
    (setViewportArgs w h).1 ≤ 1280 ∧
    (setViewportArgs w h).2 ≤ 720 ∧
    (w + 40 ≤ 1280 → (setViewportArgs w h).1 = w + 40) ∧
    (1280 ≤ w + 40 → (setViewportArgs w h).1 = 1280) ∧
    (h + 40 ≤ 720 → (setViewportArgs w h).2 = h + 40) ∧
    (720 ≤ h + 40 → (setViewportArgs w h).2 = 720) := by
  refine ⟨min_le_left _ _, min_le_left _ _,
    fun hw => min_eq_right hw, fun hw => min_eq_left hw,
    fun hh => min_eq_right hh, fun hh => min_eq_left hh⟩

/-- Witness for C9: large content is clamped to 1280 by 720; small content
gets exactly its size plus the 40-pixel margin. -/
theorem viewport_clamping_witness :
    (setViewportArgs 1240 680).1 = 1280 ∧
    (setViewportArgs 1240 680).2 = 720 ∧
    (setViewportArgs 100 50).1 = 140 ∧
    (setViewportArgs 100 50).2 = 90 := by
  refine ⟨(viewport_clamping 1240 680).2.2.2.1 (by norm_num), ?_, ?_, ?_⟩
  · have := (viewport_clamping 1240 680).2.2.2.2.2 (by norm_num)
    simpa using this
  · have := (viewport_clamping 100 50).2.2.1 (by norm_num)
    rw [this]; norm_num
  · have := (viewport_clamping 100 50).2.2.2.2.1 (by norm_num)
    rw [this]; norm_num



/-- C10: the suggested filename of a successful upload derives from the
sanitized filename: in general the sanitized name with everything from its
last dot onward removed plus `_code_image.png`; a dot-free sanitized name is
kept whole; a filename sanitized to the empty string yields exactly
`_code_image.png`. -/
theorem sanitized_filename_edge_cases :
    (∀ (env : PostEnv) (st : Cache) (sess : Session) (f : FilePart)
        (code : String) (bytes : Bytes),
      ¬ f.filename = "" → f.content.length ≤ MAX_CONTENT_LENGTH →
      env.decodeUtf8 f.content = some code →
      env.browser code = BrowserOutcome.ok bytes →
      cacheLookup (indexPost env st sess (some f)).2.1 env.freshId =
        some ⟨bytes, stripLastExt (env.secure_filename f.filename)
          ++ "_code_image.png"⟩) ∧
    (∀ (env : PostEnv) (st : Cache) (sess : Session) (f : FilePart)
        (code : String) (bytes : Bytes),
      ¬ f.filename = "" → f.content.length ≤ MAX_CONTENT_LENGTH →
      env.decodeUtf8 f.content = some code →
      env.browser code = BrowserOutcome.ok bytes →
      (env.secure_filename f.filename).data.contains '.' = false →
      cacheLookup (indexPost env st sess (some f)).2.1 env.freshId =
        some ⟨bytes, env.secure_filename f.filename ++ "_code_image.png"⟩) ∧
    (∀ (env : PostEnv) (st : Cache) (sess : Session) (f : FilePart)
        (code : String) (bytes : Bytes),
      ¬ f.filename = "" → f.content.length ≤ MAX_CONTENT_LENGTH →
      env.decodeUtf8 f.content = some code →
      env.browser code = BrowserOutcome.ok bytes →
      env.secure_filename f.filename = "" →
      cacheLookup (indexPost env st sess (some f)).2.1 env.freshId =
        some ⟨bytes, "_code_image.png"⟩) := by
  have base : ∀ (env : PostEnv) (st : Cache) (sess : Session) (f : FilePart)
      (code : String) (bytes : Bytes),
      ¬ f.filename = "" → f.content.length ≤ MAX_CONTENT_LENGTH →
      env.decodeUtf8 f.content = some code →
      env.browser code = BrowserOutcome.ok bytes →
      cacheLookup (indexPost env st sess (some f)).2.1 env.freshId =
        some ⟨bytes, stripLastExt (env.secure_filename f.filename)
          ++ "_code_image.png"⟩ := by
    intro env st sess f code bytes h1 h2 h3 h4
    rw [indexPost_success env st sess f code bytes h1 h2 h3 h4,
      rsplitDot1_headD]
    simp [cacheLookup]
  refine ⟨base, fun env st sess f code bytes h1 h2 h3 h4 h5 => ?_,
    fun env st sess f code bytes h1 h2 h3 h4 h5 => ?_⟩
  · rw [base env st sess f code bytes h1 h2 h3 h4,
      stripLastExt_no_dot _ h5]
  · rw [base env st sess f code bytes h1 h2 h3 h4, h5,
      stripLastExt_no_dot "" rfl]
    simp

/-- Witness for C10: a sanitizer yielding the empty string gives exactly
`_code_image.png`; a dot-free sanitized name is kept whole. -/
theorem sanitized_filename_edge_cases_witness :
    cacheLookup (indexPost emptyNameEnv [] clearedSession
        (some ⟨"///", [104]⟩)).2.1 "id-4" =
      some ⟨[5], "_code_image.png"⟩ ∧
    cacheLookup (indexPost noDotEnv [] clearedSession
        (some ⟨"a.py", [104]⟩)).2.1 "id-5" =
      some ⟨[5], "noext_code_image.png"⟩ := by
  refine ⟨sanitized_filename_edge_cases.2.2 emptyNameEnv [] clearedSession
    ⟨"///", [104]⟩ "x" [5] (by decide) (by decide) rfl rfl rfl, ?_⟩
  have := sanitized_filename_edge_cases.2.1 noDotEnv [] clearedSession
    ⟨"a.py", [104]⟩ "x" [5] (by decide) (by decide) rfl rfl (by decide)
  exact this.trans (congrArg some (by decide))

/-- C1: the store is a single-slot cache: any POST leaves at most one
entry; GET and download never grow the store; and after two sequential
successful uploads (with their distinct fresh uuids) the second upload's
entry is resident and the first upload's key resolves to nothing. -/
theorem single_slot_cache :
    (∀ (env : PostEnv) (st : Cache) (sess : Session) (cf : Option FilePart),
      (indexPost env st sess cf).2.1.length ≤ 1) ∧
    (∀ (st : Cache) (sess : Session),
      (indexGet st sess).2.1.length ≤ st.length) ∧
    (∀ (st : Cache) (sess : Session),
      (download_image st sess).2.1.length ≤ st.length) ∧
    (∀ (env1 env2 : PostEnv) (st : Cache) (sess : Session)
        (f1 f2 : FilePart) (code1 code2 : String) (bytes1 bytes2 : Bytes),
      ¬ f1.filename = "" → f1.content.length ≤ MAX_CONTENT_LENGTH →
      env1.decodeUtf8 f1.content = some code1 →
      env1.browser code1 = BrowserOutcome.ok bytes1 →
      ¬ f2.filename = "" → f2.content.length ≤ MAX_CONTENT_LENGTH →
      env2.decodeUtf8 f2.content = some code2 →
      env2.browser code2 = BrowserOutcome.ok bytes2 →
      ¬ env1.freshId = env2.freshId →
      (cacheLookup (indexPost env2 (indexPost env1 st sess (some f1)).2.1
          (indexPost env1 st sess (some f1)).2.2 (some f2)).2.1
          env2.freshId).isSome = true ∧
      cacheLookup (indexPost env2 (indexPost env1 st sess (some f1)).2.1
          (indexPost env1 st sess (some f1)).2.2 (some f2)).2.1
          env1.freshId = none) := by
  refine ⟨fun env st sess cf => ?_, fun st sess => ?_, fun st sess => ?_,
    fun env1 env2 st sess f1 f2 code1 code2 bytes1 bytes2
      h1 h2 h3 h4 h5 h6 h7 h8 hne => ?_⟩
  · cases cf with
    | none => simp [indexPost]
    | some f =>
        by_cases hf : f.filename = ""
        · simp [indexPost, hf]
        · by_cases hsz : MAX_CONTENT_LENGTH < f.content.length
          · simp [indexPost, hf, gt_iff_lt, hsz]
          · cases hd : env.decodeUtf8 f.content with
            | none =>
                simp [indexPost, postAfterSizeCheck, hf, gt_iff_lt, hsz, hd]
            | some code =>
                cases hb : env.browser code with
                | ok bytes =>
                    simp [indexPost, postAfterSizeCheck, hf, gt_iff_lt,
                      hsz, hd, generate_screenshot, hb, cacheInsert]
                | playwrightError m =>
                    by_cases hsub :
                        substrIn ("Executable doesn\x27t exist".data) m.data
                    · simp [indexPost, postAfterSizeCheck, hf, gt_iff_lt,
                        hsz, hd, generate_screenshot, hb, hsub]
                    · simp [indexPost, postAfterSizeCheck, hf, gt_iff_lt,
                        hsz, hd, generate_screenshot, hb, hsub]
                | otherError m =>
                    simp [indexPost, postAfterSizeCheck, hf, gt_iff_lt,
                      hsz, hd, generate_screenshot, hb]
  · rw [indexGet]
    split
    · simp
    · split <;> simp
  · rw [download_image]
    split
    · simp
    · simp [cachePop]
      exact List.length_filter_le _ _
  · rw [indexPost_success env1 st sess f1 code1 bytes1 h1 h2 h3 h4]
    rw [indexPost_success env2 _ _ f2 code2 bytes2 h5 h6 h7 h8]
    constructor
    · simp [cacheLookup]
    · have hne2 : (env2.freshId == env1.freshId) = false := by
        simp
        exact fun hcontra => hne hcontra.symm
      simp [cacheLookup, hne2]

/-- Witness for C1: a POST result has at most one entry, and after two
concrete successful uploads the second id resolves while the first does
not. -/
theorem single_slot_cache_witness :
    (indexPost okEnv [] clearedSession (some ⟨"a.py", [104]⟩)).2.1.length
      ≤ 1 ∧
    (cacheLookup (indexPost okEnv2 (indexPost okEnv [] clearedSession
        (some ⟨"a.py", [104]⟩)).2.1 (indexPost okEnv [] clearedSession
        (some ⟨"a.py", [104]⟩)).2.2 (some ⟨"b.py", [105]⟩)).2.1
        "id-9").isSome = true ∧
    cacheLookup (indexPost okEnv2 (indexPost okEnv [] clearedSession
        (some ⟨"a.py", [104]⟩)).2.1 (indexPost okEnv [] clearedSession
        (some ⟨"a.py", [104]⟩)).2.2 (some ⟨"b.py", [105]⟩)).2.1
        "id-1" = none := by
  have h := single_slot_cache.2.2.2 okEnv okEnv2 [] clearedSession
    ⟨"a.py", [104]⟩ ⟨"b.py", [105]⟩ "print(1)" "print(2)" [7, 7] [8, 8]
    (by decide) (by decide) rfl rfl (by decide) (by decide) rfl rfl
    (by decide)
  exact ⟨single_slot_cache.1 okEnv [] clearedSession (some ⟨"a.py", [104]⟩),
    h.1, h.2⟩
